import Mathlib

/-!
# Control-server lifecycle (`c-utils/src/management/server.c`)

A shallow embedding of `server_init`, `server_fini`, `server_start` and
`server_stop`.  Every call into a collaborator (libevent, libevhtp, the
parameter parser, the allocator) is recorded as an `Event` in a trace, and the
collaborators' answers are taken as inputs, so that the functions below are
pure and executable.  Log calls are not recorded.
-/

namespace Management

/-! ## Data model -/

/-- Modelled from the spec: `struct params` is declared in a header that is not
part of the sources at hand; the fields are the ones `server.c` reads
(`bind_ipv4`, `addr_ipv4`, `bind_ipv6`, `addr_ipv6`, `port`, `print_usage`).
An address is the byte content of the `char *` it points to. -/
structure Params where
  bind_ipv4 : Bool
  addr_ipv4 : List Nat
  bind_ipv6 : Bool
  addr_ipv6 : List Nat
  port : Nat
  print_usage : Bool
  deriving DecidableEq

/-- The fields of `struct server` that `server.c` touches.  A pointer field is
an `Option`: `none` is `NULL`; handles of libevent / libevhtp objects are
addresses. -/
structure Server where
  params : Option Params
  controller_list : List Nat
  request_list : List Nat
  is_shutting_down : Int
  is_launch_err : Int
  ev_base : Option Nat
  ev_htp_ipv4 : Option Nat
  ev_htp_ipv6 : Option Nat
  deriving DecidableEq

/-- Which out-parameter an `http_evhtp_init` call was given. -/
inductive Family where
  | ipv4
  | ipv6
  deriving DecidableEq

/-- One byte of an allocated buffer: `none` is a byte never written. -/
abbrev Buf := List (Option Nat)

/-- Calls into collaborators and stores into the server object, in program
order. -/
inductive Event where
  | malloc_server (ok : Bool)
  | params_init (argc : Nat) (rc : Int)
  | pthread_setcanceltype
  | list_init_controller_list
  | evthread_use_pthreads
  | event_base_new (res : Option Nat)
  | evthread_make_base_notifiable (base : Nat) (rc : Int)
  | http_evhtp_init (slot : Family) (base : Nat) (rc : Int) (out : Option Nat)
  | list_init_request_list
  | evhtp_unbind_socket (htp : Option Nat)
  | evhtp_free (htp : Nat)
  | event_base_free (base : Nat)
  | free_server
  | params_fini (p : Params)
  | http_evhtp_fini (htp : Nat)
  | malloc_addr (size : Nat)
  | evhtp_bind_socket (htp : Option Nat) (addr : Buf) (port : Nat) (backlog : Nat) (rc : Int)
  | free_addr
  | event_base_loop (base : Option Nat) (flags : Nat) (rc : Int)
  | set_is_shutting_down (v : Int)
  | event_base_loopexit (base : Option Nat) (tv_sec : Nat) (tv_usec : Nat) (rc : Int)
  deriving DecidableEq

/-- Value of `ENOMEM` in `errno.h` (Linux). -/
def ENOMEM : Int := 12

/-! ## `server_init` -/

/-- Answers of the collaborators of `server_init`.  `params_init` returns its
status and the parameters it stored in `server->params` (read only when the
status is 0); `http_evhtp_init` returns its status and what it left in its
out-parameter. -/
structure InitEnv where
  malloc_ok : Bool
  params_init : List String → Int × Params
  event_base_new : Option Nat
  make_base_notifiable : Int
  http_evhtp_init_ipv4 : Int × Option Nat
  http_evhtp_init_ipv6 : Int × Option Nat

/-- The locals of `server_init` that the code after the `error:` label reads.
`server` tells whether the local `server` pointer is non-NULL. -/
structure InitLocals where
  rc : Int
  server : Bool
  ev_htp_ipv4 : Option Nat
  ev_htp_ipv6 : Option Nat
  ev_base : Option Nat
  deriving DecidableEq

/-- What a call of `server_init` leaves behind: the returned status, the value
of `*ret_server` and the trace. -/
structure InitResult where
  rc : Int
  ret_server : Option Server
  trace : List Event
  deriving DecidableEq

/-- The code after the `error:` label (lines 116-133). -/
def init_cleanup (l : InitLocals) : List Event :=
  (match l.ev_htp_ipv4 with
    | some h => [Event.evhtp_unbind_socket (some h), Event.evhtp_free h]
    | none => []) ++
  (match l.ev_htp_ipv6 with
    | some h6 => [Event.evhtp_unbind_socket l.ev_htp_ipv4, Event.evhtp_free h6]
    | none => []) ++
  (match l.ev_base with
    | some b => [Event.event_base_free b]
    | none => []) ++
  (if l.server then [Event.free_server] else [])

/-- Run the `error:` label with the given locals and return `rc` (lines 116-135). -/
def init_exit (l : InitLocals) (ret_server : Option Server) (trace : List Event) : InitResult :=
  { rc := l.rc, ret_server := ret_server, trace := trace ++ init_cleanup l }

/-- Lines 31-136.  `ret_server` is the value of `*ret_server` on entry. -/
def server_init (env : InitEnv) (argv : List String) (ret_server : Option Server) : InitResult :=
  let l0 : InitLocals :=
    { rc := 0, server := false, ev_htp_ipv4 := none, ev_htp_ipv6 := none, ev_base := none }
  let t0 := [Event.malloc_server env.malloc_ok]
  if env.malloc_ok = false then
    init_exit { l0 with rc := ENOMEM } ret_server t0
  else
    let l1 := { l0 with server := true }
    let rc := (env.params_init argv).1
    let params := (env.params_init argv).2
    let t1 := t0 ++ [Event.params_init argv.length rc]
    if rc ≠ 0 ∨ params.print_usage = true then
      init_exit { l1 with rc := rc } ret_server t1
    else
      let t2 := t1 ++ [Event.pthread_setcanceltype, Event.list_init_controller_list,
        Event.evthread_use_pthreads, Event.event_base_new env.event_base_new]
      match env.event_base_new with
      | none => init_exit { l1 with rc := rc } ret_server t2
      | some base =>
        let l2 := { l1 with ev_base := some base }
        let rc := env.make_base_notifiable
        let t3 := t2 ++ [Event.evthread_make_base_notifiable base rc]
        if rc ≠ 0 then
          init_exit { l2 with rc := rc } ret_server t3
        else
          -- lines 78-86
          let rc4 := if params.bind_ipv4 then env.http_evhtp_init_ipv4.1 else rc
          let l3 := { l2 with
            ev_htp_ipv4 := if params.bind_ipv4 then env.http_evhtp_init_ipv4.2 else none }
          let t4 := t3 ++ (if params.bind_ipv4 then
            [Event.http_evhtp_init Family.ipv4 base env.http_evhtp_init_ipv4.1
              env.http_evhtp_init_ipv4.2] else [])
          if params.bind_ipv4 = true ∧ rc4 ≠ 0 then
            init_exit { l3 with rc := rc4 } ret_server t4
          else
            -- lines 88-96
            let rc6 := if params.bind_ipv6 then env.http_evhtp_init_ipv6.1 else rc4
            let l4 := { l3 with
              ev_htp_ipv6 := if params.bind_ipv6 then env.http_evhtp_init_ipv6.2 else none }
            let t5 := t4 ++ (if params.bind_ipv6 then
              [Event.http_evhtp_init Family.ipv6 base env.http_evhtp_init_ipv6.1
                env.http_evhtp_init_ipv6.2] else [])
            if params.bind_ipv6 = true ∧ rc6 ≠ 0 then
              init_exit { l4 with rc := rc6 } ret_server t5
            else
              -- lines 98-114
              let server : Server :=
                { params := some params
                  controller_list := []
                  request_list := []
                  is_shutting_down := 0
                  is_launch_err := 0
                  ev_base := l4.ev_base
                  ev_htp_ipv4 := l4.ev_htp_ipv4
                  ev_htp_ipv6 := l4.ev_htp_ipv6 }
              init_exit
                { rc := rc6, server := false, ev_htp_ipv4 := none, ev_htp_ipv6 := none,
                  ev_base := none }
                (some server) (t5 ++ [Event.list_init_request_list])

/-! ## `server_fini` -/

/-- Status and trace of a `server_fini` call. -/
structure FiniResult where
  rc : Int
  trace : List Event
  deriving DecidableEq

/-- Lines 138-164.  The argument is the `struct server *`, `none` being `NULL`. -/
def server_fini (server : Option Server) : FiniResult :=
  match server with
  | none => { rc := 0, trace := [] }
  | some s =>
    { rc := 0
      trace :=
        (match s.params with
          | some p => [Event.params_fini p]
          | none => []) ++
        (match s.ev_htp_ipv4 with
          | some h => [Event.http_evhtp_fini h]
          | none => []) ++
        (match s.ev_htp_ipv6 with
          | some h => [Event.http_evhtp_fini h]
          | none => []) ++
        (match s.ev_base with
          | some b => [Event.event_base_free b]
          | none => []) ++
        [Event.free_server] }

/-! ## `server_start` -/

/-- Ways in which a memory access of `server_start` can go wrong. -/
inductive Fault where
  | null_deref
  | out_of_bounds
  deriving DecidableEq

/-- Result of a memory operation. -/
inductive Mem where
  | ok (buf : Buf)
  | fault (f : Fault)
  deriving DecidableEq

/-- How a call of `server_start` ends: it returns a status, or it stops at a
faulting memory access. -/
inductive Outcome where
  | returned (rc : Int)
  | fault (f : Fault)
  deriving DecidableEq

/-- Outcome and trace of a `server_start` call. -/
structure StartResult where
  result : Outcome
  trace : List Event
  deriving DecidableEq

/-- Answers of the collaborators of `server_start`: the status of
`evhtp_bind_socket` for each listener and of `event_base_loop`. -/
structure StartEnv where
  bind_ipv4 : Int
  bind_ipv6 : Int
  event_base_loop : Int
  deriving DecidableEq

/-- The characters of the C string that starts at the head of the list: the
bytes before the first NUL. -/
def cstr (s : List Nat) : List Nat := s.takeWhile (fun b => b != 0)

/-- `strlen` of the C string that starts at the head of the list. -/
def strlen (s : List Nat) : Nat := (cstr s).length

/-- The literal `"ipv4:"` (line 173). -/
def ipv4_prefix : List Nat := [105, 112, 118, 52, 58]

/-- The literal `"ipv6:"` (line 174). -/
def ipv6_prefix : List Nat := [105, 112, 118, 54, 58]

/-- A fresh block of `size` bytes as `malloc` returns it.  The code asserts
`dassert(addr != NULL)` right after the call; allocation is taken to succeed. -/
def malloc (size : Nat) : Buf := List.replicate size none

/-- Store `bytes` into the block from offset `off` on. -/
def store (buf : Buf) (off : Nat) (bytes : List Nat) : Mem :=
  if off + bytes.length ≤ buf.length then
    Mem.ok (buf.take off ++ bytes.map some ++ buf.drop (off + bytes.length))
  else
    Mem.fault Fault.out_of_bounds

/-- The call `strncpy(dst, src, n)` where `dst` is an offset into the block
`buf`, or `none` when the pointer was not derived from the block (it is then
`NULL` plus a displacement).  Exactly `n` bytes are written: the characters of
`src`, padded with NULs; with `n = 0` nothing is written. -/
def strncpy (buf : Buf) (dst : Option Nat) (src : List Nat) (n : Nat) : Mem :=
  if n = 0 then Mem.ok buf
  else
    match dst with
    | none => Mem.fault Fault.null_deref
    | some off => store buf off ((cstr src).take n ++ List.replicate (n - strlen src) 0)

/-- Pointer plus displacement: `NULL` stays outside every block. -/
def ptr_add (p : Option Nat) (k : Nat) : Option Nat := p.map (fun off => off + k)

/-- Lines 177-187: the bind string of the IPv4 listener. -/
def compose_ipv4 (params : Params) : Mem :=
  let prefix_len := strlen ipv4_prefix
  let addr_len := strlen params.addr_ipv4
  let addr : Option Nat := some 0
  let buf := malloc (addr_len + prefix_len + 1)
  match strncpy buf addr ipv4_prefix prefix_len with
  | Mem.fault f => Mem.fault f
  | Mem.ok buf =>
    match strncpy buf (ptr_add addr prefix_len) params.addr_ipv4 addr_len with
    | Mem.fault f => Mem.fault f
    | Mem.ok buf => store buf (prefix_len + addr_len) [0]

/-- Lines 205-215: the bind string of the IPv6 listener.  The length is the one
of `ipv4_prefix` and the address is copied to `addr_ptr + prefix_len`, where
`addr_ptr` is still `NULL` (line 172). -/
def compose_ipv6 (params : Params) : Mem :=
  let prefix_len := strlen ipv4_prefix
  let addr_len := strlen params.addr_ipv6
  let addr : Option Nat := some 0
  let addr_ptr : Option Nat := none
  let buf := malloc (addr_len + prefix_len + 1)
  match strncpy buf addr ipv6_prefix prefix_len with
  | Mem.fault f => Mem.fault f
  | Mem.ok buf =>
    match strncpy buf (ptr_add addr_ptr prefix_len) params.addr_ipv6 addr_len with
    | Mem.fault f => Mem.fault f
    | Mem.ok buf => store buf (prefix_len + addr_len) [0]

/-- Put the events of an earlier part of the call in front of a result. -/
def StartResult.after (t : List Event) (r : StartResult) : StartResult :=
  { r with trace := t ++ r.trace }

/-- Lines 238-240: run the loop and return its status. -/
def start_loop (server : Server) (env : StartEnv) : StartResult :=
  { result := Outcome.returned env.event_base_loop
    trace := [Event.event_base_loop server.ev_base 0 env.event_base_loop] }

/-- Lines 204-246: the IPv6 block and what follows it. -/
def start_ipv6 (server : Server) (params : Params) (env : StartEnv) : StartResult :=
  if params.bind_ipv6 then
    let size := strlen params.addr_ipv6 + strlen ipv4_prefix + 1
    match compose_ipv6 params with
    | Mem.fault f => { result := Outcome.fault f, trace := [Event.malloc_addr size] }
    | Mem.ok addr =>
      let rc := env.bind_ipv6
      let t := [Event.malloc_addr size,
        Event.evhtp_bind_socket server.ev_htp_ipv6 addr params.port 1024 rc]
      if rc < 0 then
        { result := Outcome.returned rc, trace := t ++ [Event.free_addr] }
      else
        (start_loop server env).after (t ++ [Event.free_addr])
  else
    start_loop server env

/-- Lines 166-246.  `server->params` is read without a check, so a `NULL`
there is a fault. -/
def server_start (server : Server) (env : StartEnv) : StartResult :=
  match server.params with
  | none => { result := Outcome.fault Fault.null_deref, trace := [] }
  | some params =>
    if params.bind_ipv4 then
      let size := strlen params.addr_ipv4 + strlen ipv4_prefix + 1
      match compose_ipv4 params with
      | Mem.fault f => { result := Outcome.fault f, trace := [Event.malloc_addr size] }
      | Mem.ok addr =>
        let rc := env.bind_ipv4
        let t := [Event.malloc_addr size,
          Event.evhtp_bind_socket server.ev_htp_ipv4 addr params.port 1024 rc]
        if rc < 0 then
          { result := Outcome.returned rc, trace := t ++ [Event.free_addr] }
        else
          (start_ipv6 server params env).after (t ++ [Event.free_addr])
    else
      start_ipv6 server params env

/-! ## `server_stop` -/

/-- Status, server object and trace after a `server_stop` call. -/
structure StopResult where
  rc : Int
  server : Option Server
  trace : List Event
  deriving DecidableEq

/-- Lines 248-276.  `loopexit` is the status `event_base_loopexit` answers. -/
def server_stop (server : Option Server) (loopexit : Int) : StopResult :=
  match server with
  | none => { rc := 0, server := none, trace := [] }
  | some s =>
    let s1 := { s with is_shutting_down := 1 }
    let tv_sec := 3
    let tv_usec := 0
    let rc := loopexit
    { rc := rc
      server := some s1
      trace := [Event.set_is_shutting_down 1,
        Event.event_base_loopexit s1.ev_base tv_sec tv_usec rc] }

/-! ## Sample inputs -/

/-- Bytes of `"127.0.0.1"`. -/
def addr_localhost4 : List Nat := [49, 50, 55, 46, 48, 46, 48, 46, 49]

/-- Bytes of `"::1"`. -/
def addr_localhost6 : List Nat := [58, 58, 49]

/-- Parameters `-p 9090` with IPv4 on `127.0.0.1` only. -/
def params_v4 : Params :=
  { bind_ipv4 := true, addr_ipv4 := addr_localhost4, bind_ipv6 := false, addr_ipv6 := [],
    port := 9090, print_usage := false }

/-- Parameters with IPv6 on `::1` only. -/
def params_v6 : Params :=
  { bind_ipv4 := false, addr_ipv4 := [], bind_ipv6 := true, addr_ipv6 := addr_localhost6,
    port := 9090, print_usage := false }

/-- Parameters with both families. -/
def params_v46 : Params :=
  { bind_ipv4 := true, addr_ipv4 := addr_localhost4, bind_ipv6 := true,
    addr_ipv6 := addr_localhost6, port := 9090, print_usage := false }

/-- Every collaborator of `server_init` succeeds; the parser yields `p`. -/
def env_ok (p : Params) : InitEnv :=
  { malloc_ok := true
    params_init := fun _ => (0, p)
    event_base_new := some 100
    make_base_notifiable := 0
    http_evhtp_init_ipv4 := (0, some 204)
    http_evhtp_init_ipv6 := (0, some 206) }

/-- A server as `server_init` builds it for `p` with `env_ok p`. -/
def server_of (p : Params) : Server :=
  { params := some p, controller_list := [], request_list := [], is_shutting_down := 0,
    is_launch_err := 0, ev_base := some 100,
    ev_htp_ipv4 := if p.bind_ipv4 then some 204 else none,
    ev_htp_ipv6 := if p.bind_ipv6 then some 206 else none }


/-- The parser succeeds with `p`, and `event_base_new` answers `NULL`. -/
def env_no_base (p : Params) : InitEnv :=
  { env_ok p with event_base_new := none }

/-- The parser succeeds with `p` where only usage was asked for. -/
def env_usage (p : Params) : InitEnv :=
  env_ok { p with print_usage := true }

/-! ## Predicates on events and on the collaborators' answers -/

/-- Events that give a resource back: unbinding or freeing a listener, freeing
the event base, the parameters, the server object or a bind string. -/
def Event.is_release : Event → Bool
  | Event.evhtp_unbind_socket _ => true
  | Event.evhtp_free _ => true
  | Event.event_base_free _ => true
  | Event.free_server => true
  | Event.params_fini _ => true
  | Event.http_evhtp_fini _ => true
  | Event.free_addr => true
  | _ => false

/-- Events that take a listener off its socket. -/
def Event.is_unbind : Event → Bool
  | Event.evhtp_unbind_socket _ => true
  | Event.http_evhtp_fini _ => true
  | Event.evhtp_free _ => true
  | _ => false

/-- Calls of `evhtp_bind_socket`. -/
def Event.is_bind : Event → Bool
  | Event.evhtp_bind_socket _ _ _ _ _ => true
  | _ => false

/-- Calls of `event_base_loop`. -/
def Event.is_loop : Event → Bool
  | Event.event_base_loop _ _ _ => true
  | _ => false

/-- Calls of `http_evhtp_init` for the given out-parameter. -/
def Event.is_listener_init (f : Family) : Event → Bool
  | Event.http_evhtp_init slot _ _ _ => decide (slot = f)
  | _ => false

/-- Some stage of `server_init` fails: the allocation, the parser (status or
usage), the event base, making it notifiable, or the construction of a
requested listener. -/
def init_stage_fails (env : InitEnv) (argv : List String) : Prop :=
  env.malloc_ok = false ∨
  (env.params_init argv).1 ≠ 0 ∨
  (env.params_init argv).2.print_usage = true ∨
  env.event_base_new = none ∨
  env.make_base_notifiable ≠ 0 ∨
  ((env.params_init argv).2.bind_ipv4 = true ∧ env.http_evhtp_init_ipv4.1 ≠ 0) ∨
  ((env.params_init argv).2.bind_ipv6 = true ∧ env.http_evhtp_init_ipv6.1 ≠ 0)

instance (env : InitEnv) (argv : List String) : Decidable (init_stage_fails env argv) := by
  unfold init_stage_fails
  infer_instance

/-- What a reader of the C string at the start of a block gets: the bytes
before the first NUL, or `none` when a byte never written or the end of the
block comes first. -/
def read_cstr : Buf → Option (List Nat)
  | [] => none
  | none :: _ => none
  | some b :: rest => if b = 0 then some [] else (read_cstr rest).map (fun l => b :: l)

/-- Calls of `evhtp_bind_socket` that returned a negative status. -/
def Event.bind_failed : Event → Bool
  | Event.evhtp_bind_socket _ _ _ _ rc => decide (rc < 0)
  | _ => false

/-- No bind call follows a bind call that failed. -/
def no_bind_after_failure : List Event → Bool
  | [] => true
  | e :: rest =>
    (!e.bind_failed || rest.all (fun x => !x.is_bind)) && no_bind_after_failure rest

/-- What the fail-fast claim needs of one result: no bind after a failed bind,
no unbind at all, and a failed bind makes its status the returned one and
excludes a loop run. -/
def fail_fast (r : StartResult) : Prop :=
  no_bind_after_failure r.trace = true ∧
  (∀ x ∈ r.trace, x.is_unbind = false) ∧
  (∀ htp addr port backlog rc, Event.evhtp_bind_socket htp addr port backlog rc ∈ r.trace →
    rc < 0 → r.result = Outcome.returned rc ∧ ∀ y ∈ r.trace, y.is_loop = false)

/-! ## Theorems: `server_init` -/

/-- C1: whenever a stage of `server_init` fails, `*ret_server` keeps the value
it had on entry. -/
theorem server_init_failure_keeps_ret_server (env : InitEnv) (argv : List String)
    (prev : Option Server) (hfail : init_stage_fails env argv) :
    (server_init env argv prev).ret_server = prev := by
  unfold init_stage_fails at hfail
  by_cases hm : env.malloc_ok = false
  · simp [server_init, init_exit, hm]
  by_cases hp : (env.params_init argv).1 ≠ 0 ∨ (env.params_init argv).2.print_usage = true
  · simp [server_init, init_exit, hm, hp]
  cases hb : env.event_base_new with
  | none => simp [server_init, init_exit, hm, hp, hb]
  | some base =>
    by_cases hn : env.make_base_notifiable ≠ 0
    · simp [server_init, init_exit, hm, hp, hb, hn]
    by_cases h4 : (env.params_init argv).2.bind_ipv4 = true ∧ env.http_evhtp_init_ipv4.1 ≠ 0
    · simp [server_init, init_exit, hm, hp, hb, hn, h4]
    by_cases h6 : (env.params_init argv).2.bind_ipv6 = true ∧ env.http_evhtp_init_ipv6.1 ≠ 0
    · obtain ⟨h6a, h6b⟩ := h6
      cases h4b : (env.params_init argv).2.bind_ipv4
      · simp [server_init, init_exit, hm, hp, hb, hn, h4b, h6a, h6b]
      · simp only [h4b, true_and, ne_eq, not_not] at h4
        simp [server_init, init_exit, hm, hp, hb, hn, h4b, h4, h6a, h6b]
    exfalso
    rcases hfail with h | h | h | h | h | h | h
    · exact hm h
    · exact hp (Or.inl h)
    · exact hp (Or.inr h)
    · simp [hb] at h
    · exact hn h
    · exact h4 h
    · exact h6 h

/-- Witness of C1: the event base cannot be created. -/
theorem server_init_failure_keeps_ret_server_witness :
    init_stage_fails (env_no_base params_v46) [] ∧
    (server_init (env_no_base params_v46) [] none).ret_server = none :=
  ⟨by decide, server_init_failure_keeps_ret_server (env_no_base params_v46) [] none (by decide)⟩

/-- C2: with a parser that succeeds and an event base that cannot be created,
`server_init` returns 0 although it stored no server; the same happens when
only usage was asked for. -/
theorem server_init_returns_zero_without_server :
    (server_init (env_no_base params_v4) [] none).rc = 0 ∧
    (server_init (env_no_base params_v4) [] none).ret_server = none ∧
    (server_init (env_usage params_v4) [] none).rc = 0 ∧
    (server_init (env_usage params_v4) [] none).ret_server = none := by
  decide

/-- C3: when the event base cannot be created after the parser succeeded, the
only release on the way out is `free(server)`: the parameters that
`params_init` stored are never handed to `params_fini`. -/
theorem server_init_rollback_leaks_params :
    (server_init (env_no_base params_v4) [] none).trace =
      [Event.malloc_server true, Event.params_init 0 0, Event.pthread_setcanceltype,
        Event.list_init_controller_list, Event.evthread_use_pthreads,
        Event.event_base_new none, Event.free_server] ∧
    Event.params_fini params_v4 ∉ (server_init (env_no_base params_v4) [] none).trace ∧
    Event.params_fini params_v4 ∈ (server_fini (some (server_of params_v4))).trace := by
  decide

/-- The cleanup of a failed IPv6 listener construction unbinds the IPv4 local:
with IPv4 off and an `http_evhtp_init` that fails after storing a handle, the
call `evhtp_unbind_socket(NULL)` is made. -/
theorem server_init_ipv6_cleanup_unbinds_ipv4 :
    (server_init { env_ok params_v6 with http_evhtp_init_ipv6 := (5, some 206) } [] none).trace =
      [Event.malloc_server true, Event.params_init 0 0, Event.pthread_setcanceltype,
        Event.list_init_controller_list, Event.evthread_use_pthreads,
        Event.event_base_new (some 100), Event.evthread_make_base_notifiable 100 0,
        Event.http_evhtp_init Family.ipv6 100 5 (some 206),
        Event.evhtp_unbind_socket none, Event.evhtp_free 206,
        Event.event_base_free 100, Event.free_server] := by
  decide

/-- C10: when every stage succeeds and usage was not asked for, `server_init`
returns 0 and stores a server with both flags 0, the event base created in this
call, the parsed parameters, and a listener exactly for the families asked for
(the handle `http_evhtp_init` produced); each requested family has one
construction call, and the trace holds no release, no unbind and no bind. -/
theorem server_init_success (env : InitEnv) (argv : List String) (prev : Option Server)
    (base : Nat)
    (hm : env.malloc_ok = true)
    (hrc : (env.params_init argv).1 = 0)
    (hu : (env.params_init argv).2.print_usage = false)
    (hb : env.event_base_new = some base)
    (hn : env.make_base_notifiable = 0)
    (h4 : (env.params_init argv).2.bind_ipv4 = true →
      env.http_evhtp_init_ipv4.1 = 0 ∧ env.http_evhtp_init_ipv4.2 ≠ none)
    (h6 : (env.params_init argv).2.bind_ipv6 = true →
      env.http_evhtp_init_ipv6.1 = 0 ∧ env.http_evhtp_init_ipv6.2 ≠ none) :
    (server_init env argv prev).rc = 0 ∧
    (∃ s, (server_init env argv prev).ret_server = some s ∧
      s.is_shutting_down = 0 ∧ s.is_launch_err = 0 ∧
      s.ev_base = some base ∧
      s.params = some (env.params_init argv).2 ∧
      (s.ev_htp_ipv4 ≠ none ↔ (env.params_init argv).2.bind_ipv4 = true) ∧
      (s.ev_htp_ipv6 ≠ none ↔ (env.params_init argv).2.bind_ipv6 = true) ∧
      ((env.params_init argv).2.bind_ipv4 = true → s.ev_htp_ipv4 = env.http_evhtp_init_ipv4.2) ∧
      ((env.params_init argv).2.bind_ipv6 = true → s.ev_htp_ipv6 = env.http_evhtp_init_ipv6.2)) ∧
    ((server_init env argv prev).trace.filter (Event.is_listener_init Family.ipv4)).length =
      (if (env.params_init argv).2.bind_ipv4 then 1 else 0) ∧
    ((server_init env argv prev).trace.filter (Event.is_listener_init Family.ipv6)).length =
      (if (env.params_init argv).2.bind_ipv6 then 1 else 0) ∧
    (∀ e ∈ (server_init env argv prev).trace,
      e.is_release = false ∧ e.is_unbind = false ∧ e.is_bind = false) := by
  cases b4 : (env.params_init argv).2.bind_ipv4 <;>
  cases b6 : (env.params_init argv).2.bind_ipv6 <;>
  simp only [b4, b6, true_implies, false_implies] at h4 h6 <;>
  simp [server_init, init_exit, init_cleanup, hm, hrc, hu, hb, hn, b4, b6, h4, h6,
    Event.is_release, Event.is_unbind, Event.is_bind, Event.is_listener_init]

/-- Witness of C10: both families asked for, every collaborator succeeds. -/
theorem server_init_success_witness :
    (server_init (env_ok params_v46) [] none).rc = 0 ∧
    (server_init (env_ok params_v46) [] none).ret_server = some (server_of params_v46) ∧
    (∃ s, (server_init (env_ok params_v46) [] none).ret_server = some s ∧
      s.ev_htp_ipv4 = some 204 ∧ s.ev_htp_ipv6 = some 206) := by
  have h := server_init_success (env_ok params_v46) [] none 100 (by decide) (by decide)
    (by decide) (by decide) (by decide) (by decide) (by decide)
  refine ⟨h.1, by decide, ?_⟩
  obtain ⟨s, hs, _, _, _, _, _, _, h4, h6⟩ := h.2.1
  exact ⟨s, hs, h4 (by decide), h6 (by decide)⟩

/-! ## Theorems: `server_fini` -/

/-- C9: `server_fini` returns 0 on every input; on `NULL` it releases nothing;
on a server it releases the parameters, the IPv4 listener, the IPv6 listener
and the event base, each only if present, in this order, and then the server
object, once; a following call on `NULL` adds no release, so that no release
event occurs twice when the two listeners are different objects. -/
theorem server_fini_releases_in_order (server : Option Server) (s : Server) :
    (server_fini server).rc = 0 ∧
    (server_fini none).trace = [] ∧
    (server_fini (some s)).trace =
      s.params.toList.map Event.params_fini ++
      s.ev_htp_ipv4.toList.map Event.http_evhtp_fini ++
      s.ev_htp_ipv6.toList.map Event.http_evhtp_fini ++
      s.ev_base.toList.map Event.event_base_free ++
      [Event.free_server] ∧
    ((server_fini (some s)).trace ++ (server_fini none).trace).count Event.free_server = 1 ∧
    (∀ p, ((server_fini (some s)).trace ++ (server_fini none).trace).count
      (Event.params_fini p) ≤ 1) ∧
    (∀ b, ((server_fini (some s)).trace ++ (server_fini none).trace).count
      (Event.event_base_free b) ≤ 1) ∧
    ((∀ h, s.ev_htp_ipv4 = some h → s.ev_htp_ipv6 ≠ some h) →
      ((server_fini (some s)).trace ++ (server_fini none).trace).Nodup) := by
  refine ⟨?_, rfl, ?_, ?_, ?_, ?_, ?_⟩
  · cases server <;> rfl
  · rcases s with ⟨p, cl, rl, sd, le, b, h4, h6⟩
    cases p <;> cases h4 <;> cases h6 <;> cases b <;> simp [server_fini]
  · rcases s with ⟨p, cl, rl, sd, le, b, h4, h6⟩
    cases p <;> cases h4 <;> cases h6 <;> cases b <;> simp [server_fini]
  · intro q
    rcases s with ⟨p, cl, rl, sd, le, b, h4, h6⟩
    cases p <;> cases h4 <;> cases h6 <;> cases b <;>
      simp [server_fini, List.count_cons] <;> split_ifs <;> omega
  · intro q
    rcases s with ⟨p, cl, rl, sd, le, b, h4, h6⟩
    cases p <;> cases h4 <;> cases h6 <;> cases b <;>
      simp [server_fini, List.count_cons] <;> split_ifs <;> omega
  · rcases s with ⟨p, cl, rl, sd, le, b, h4, h6⟩
    intro hne
    cases p <;> cases h4 <;> cases h6 <;> cases b <;> simp_all [server_fini] <;>
      exact fun h => hne h.symm

/-! ## Theorems: `server_stop` -/

/-- C8: on `NULL`, `server_stop` returns 0 with an empty trace; on a server it
stores 1 into `is_shutting_down`, then calls `event_base_loopexit` once with
3 s and 0 µs, returns that call's status whatever it is, and leaves every other
field as it was. -/
theorem server_stop_postcondition (s : Server) (loopexit : Int) :
    server_stop none loopexit = { rc := 0, server := none, trace := [] } ∧
    (server_stop (some s) loopexit).rc = loopexit ∧
    (server_stop (some s) loopexit).trace =
      [Event.set_is_shutting_down 1, Event.event_base_loopexit s.ev_base 3 0 loopexit] ∧
    (∃ s1, (server_stop (some s) loopexit).server = some s1 ∧
      s1.is_shutting_down = 1 ∧
      s1.params = s.params ∧ s1.ev_base = s.ev_base ∧
      s1.ev_htp_ipv4 = s.ev_htp_ipv4 ∧ s1.ev_htp_ipv6 = s.ev_htp_ipv6 ∧
      s1.controller_list = s.controller_list ∧ s1.request_list = s.request_list ∧
      s1.is_launch_err = s.is_launch_err) := by
  refine ⟨rfl, rfl, rfl, ?_⟩
  exact ⟨{ s with is_shutting_down := 1 }, rfl, rfl, rfl, rfl, rfl, rfl, rfl, rfl, rfl⟩

/-! ## Lemmas on the bind string -/

theorem strlen_ipv4_prefix_val : strlen ipv4_prefix = 5 := by decide

theorem cstr_ipv4_prefix_id : cstr ipv4_prefix = ipv4_prefix := by decide

theorem cstr_ipv6_prefix_id : cstr ipv6_prefix = ipv6_prefix := by decide

theorem cstr_ne_zero (s : List Nat) : ∀ b ∈ cstr s, b ≠ 0 := by
  intro b hb
  have h := List.mem_takeWhile_imp hb
  simpa using h

/-- A string without NUL is its own C string. -/
theorem cstr_eq_self (s : List Nat) (h : ∀ b ∈ s, b ≠ 0) : cstr s = s := by
  unfold cstr
  rw [List.takeWhile_eq_self_iff]
  intro b hb
  simpa using h b hb

/-- Storing right behind the written part of a block whose rest is fresh. -/
theorem store_fresh (written : Buf) (bytes : List Nat) (m : Nat) :
    store (written ++ List.replicate (bytes.length + m) none) written.length bytes =
      Mem.ok (written ++ bytes.map some ++ List.replicate m none) := by
  unfold store
  simp

/-- Reading back a NUL-free string followed by a NUL. -/
theorem read_cstr_terminated (l : List Nat) (h : ∀ b ∈ l, b ≠ 0) (rest : Buf) :
    read_cstr (l.map some ++ some 0 :: rest) = some l := by
  induction l with
  | nil => simp [read_cstr]
  | cons b l ih =>
    have hb : b ≠ 0 := h b (List.mem_cons_self _ _)
    have hl : ∀ x ∈ l, x ≠ 0 := fun x hx => h x (List.mem_cons_of_mem _ hx)
    simp [read_cstr, hb, ih hl]

/-- The IPv4 block builds `"ipv4:"`, the address and a NUL, and nothing else. -/
theorem compose_ipv4_eq (params : Params) :
    compose_ipv4 params =
      Mem.ok (( ipv4_prefix ++ cstr params.addr_ipv4 ++ [0]).map some) := by
  have h1 : malloc (strlen params.addr_ipv4 + 5 + 1) =
      ([] : Buf) ++ List.replicate ( ipv4_prefix.length + (strlen params.addr_ipv4 + 1)) none := by
    simp [malloc, ipv4_prefix]
    omega
  have s1 := store_fresh [] ipv4_prefix (strlen params.addr_ipv4 + 1)
  have s2 := store_fresh ( ipv4_prefix.map some) (cstr params.addr_ipv4) 1
  have s3 := store_fresh ( ipv4_prefix.map some ++ (cstr params.addr_ipv4).map some) [0] 0
  simp only [List.length_nil, List.nil_append, List.length_map, List.length_append,
    List.length_singleton, List.replicate_zero, List.append_nil, Nat.add_zero] at s1 s2 s3
  have hlen : ipv4_prefix.length = 5 := rfl
  rw [hlen] at s1 s2 s3
  unfold compose_ipv4
  simp only [strlen_ipv4_prefix_val, ptr_add, Option.map_some']
  rw [h1]
  simp only [List.nil_append, hlen]
  have c1 : strncpy (List.replicate (5 + (strlen params.addr_ipv4 + 1)) none) (some 0)
      ipv4_prefix 5 =
      Mem.ok ( ipv4_prefix.map some ++ List.replicate (strlen params.addr_ipv4 + 1) none) := by
    unfold strncpy
    simp only [cstr_ipv4_prefix_id, strlen_ipv4_prefix_val]
    simpa [ ipv4_prefix] using s1
  rw [c1]
  simp only
  have c2 : strncpy ( ipv4_prefix.map some ++ List.replicate (strlen params.addr_ipv4 + 1) none)
      (some (0 + 5)) params.addr_ipv4 (strlen params.addr_ipv4) =
      Mem.ok ( ipv4_prefix.map some ++ (cstr params.addr_ipv4).map some ++
        List.replicate 1 none) := by
    unfold strncpy
    by_cases h0 : strlen params.addr_ipv4 = 0
    · have hnil : cstr params.addr_ipv4 = [] := by
        unfold strlen at h0
        exact List.length_eq_zero.mp h0
      simp [h0, hnil]
    · simp only [h0, if_false, Nat.zero_add, Nat.sub_self, List.replicate_zero, List.append_nil]
      have ht : (cstr params.addr_ipv4).take (strlen params.addr_ipv4) = cstr params.addr_ipv4 := by
        unfold strlen
        simp
      rw [ht]
      unfold strlen
      exact s2
  rw [c2]
  simp only
  have hs : (5 + strlen params.addr_ipv4) = 5 + (cstr params.addr_ipv4).length := rfl
  rw [hs]
  have s3b : store ( ipv4_prefix.map some ++ (cstr params.addr_ipv4).map some ++
      List.replicate 1 none) (5 + (cstr params.addr_ipv4).length) [0] =
      Mem.ok ( ipv4_prefix.map some ++ (cstr params.addr_ipv4).map some ++ [some 0]) := by
    simpa using s3
  rw [s3b]
  simp

/-! ## Lemmas on the trace of `server_start` -/

/-- In a trace where no bind follows a failed bind, what comes after a failed
bind holds no bind. -/
theorem no_bind_after_failure_split (pre post : List Event) (e : Event)
    (h : no_bind_after_failure (pre ++ e :: post) = true) (he : e.bind_failed = true) :
    ∀ x ∈ post, x.is_bind = false := by
  induction pre with
  | nil =>
    intro x hx
    simp [no_bind_after_failure, he] at h
    simpa using h.1 x hx
  | cons a pre ih =>
    simp only [List.cons_append, no_bind_after_failure, Bool.and_eq_true] at h
    exact ih h.2

theorem start_ipv6_fail_fast (server : Server) (params : Params) (env : StartEnv) :
    fail_fast (start_ipv6 server params env) := by
  unfold start_ipv6 fail_fast
  cases params.bind_ipv6 with
  | false =>
    simp [start_loop, no_bind_after_failure, Event.bind_failed, Event.is_bind, Event.is_unbind]
  | true =>
    cases compose_ipv6 params with
    | fault f =>
      simp [no_bind_after_failure, Event.bind_failed, Event.is_bind, Event.is_unbind]
    | ok addr =>
      by_cases hrc : env.bind_ipv6 < 0
      · simp [hrc, no_bind_after_failure, Event.bind_failed, Event.is_bind, Event.is_unbind,
          Event.is_loop]
        intro _ _ _ _ rc _ _ _ _ h _
        exact h.symm
      · simp only [if_true, hrc, if_false]
        simp [StartResult.after, start_loop, no_bind_after_failure, Event.bind_failed,
          Event.is_bind, Event.is_unbind, Event.is_loop, hrc]
        intro _ _ _ _ rc _ _ _ _ h
        omega

theorem no_bind_after_failure_append (t rest : List Event)
    (ht : ∀ x ∈ t, x.bind_failed = false) (h : no_bind_after_failure rest = true) :
    no_bind_after_failure (t ++ rest) = true := by
  induction t with
  | nil => simpa using h
  | cons a t ih =>
    have ha : a.bind_failed = false := ht a (List.mem_cons_self _ _)
    have ih2 := ih (fun x hx => ht x (List.mem_cons_of_mem _ hx))
    simp [no_bind_after_failure, ha, ih2]

/-- Events without a failed bind, an unbind or a loop run in front of a
fail-fast result leave it fail-fast. -/
theorem fail_fast_after (t : List Event) (r : StartResult)
    (ht : ∀ x ∈ t, x.bind_failed = false ∧ x.is_unbind = false ∧ x.is_loop = false)
    (h : fail_fast r) : fail_fast (r.after t) := by
  obtain ⟨h1, h2, h3⟩ := h
  refine ⟨?_, ?_, ?_⟩
  · exact no_bind_after_failure_append t r.trace (fun x hx => (ht x hx).1) h1
  · intro x hx
    simp only [StartResult.after, List.mem_append] at hx
    rcases hx with hx | hx
    · exact (ht x hx).2.1
    · exact h2 x hx
  · intro htp addr port backlog rc hmem hneg
    simp only [StartResult.after, List.mem_append] at hmem
    rcases hmem with hx | hx
    · have hf := (ht _ hx).1
      simp [Event.bind_failed, hneg] at hf
    · obtain ⟨hres, hloop⟩ := h3 htp addr port backlog rc hx hneg
      refine ⟨hres, ?_⟩
      intro y hy
      simp only [StartResult.after, List.mem_append] at hy
      rcases hy with hy | hy
      · exact (ht y hy).2.2
      · exact hloop y hy

theorem server_start_fail_fast_aux (server : Server) (env : StartEnv) :
    fail_fast (server_start server env) := by
  unfold server_start
  cases server.params with
  | none => simp [fail_fast, no_bind_after_failure]
  | some params =>
    have h6 := start_ipv6_fail_fast server params env
    cases hb : params.bind_ipv4 with
    | false =>
      simp only [hb, Bool.false_eq_true, if_false]
      exact h6
    | true =>
      simp only [hb, if_true, compose_ipv4_eq]
      by_cases hrc : env.bind_ipv4 < 0
      · simp [fail_fast, hrc, no_bind_after_failure, Event.bind_failed, Event.is_bind,
          Event.is_unbind, Event.is_loop]
        intro _ _ _ _ rc _ _ _ _ h _
        exact h.symm
      · simp only [hrc, if_false]
        apply fail_fast_after _ _ _ h6
        intro x hx
        simp only [List.mem_append, List.mem_cons, List.mem_singleton, List.not_mem_nil,
          or_false] at hx
        rcases hx with (hx | hx) | hx <;> subst hx <;>
          simp [Event.bind_failed, Event.is_unbind, Event.is_loop, hrc]

/-! ## Theorems: `server_start` -/

/-- C4: if a bind call in the trace of `server_start` returned a negative
status, then `server_start` returns that status (which is not 0), the trace
holds no `event_base_loop` call, no bind call comes after the failed one, and
the trace holds no unbind. -/
theorem server_start_fail_fast (server : Server) (env : StartEnv) (pre post : List Event)
    (htp : Option Nat) (addr : Buf) (port backlog : Nat) (rc : Int)
    (htr : (server_start server env).trace =
      pre ++ Event.evhtp_bind_socket htp addr port backlog rc :: post)
    (hneg : rc < 0) :
    (server_start server env).result = Outcome.returned rc ∧ rc ≠ 0 ∧
    (∀ e ∈ (server_start server env).trace, e.is_loop = false) ∧
    (∀ e ∈ post, e.is_bind = false) ∧
    (∀ e ∈ (server_start server env).trace, e.is_unbind = false) := by
  obtain ⟨h1, h2, h3⟩ := server_start_fail_fast_aux server env
  have hmem : Event.evhtp_bind_socket htp addr port backlog rc ∈
      (server_start server env).trace := by
    rw [htr]
    simp
  obtain ⟨hres, hloop⟩ := h3 htp addr port backlog rc hmem hneg
  refine ⟨hres, by omega, hloop, ?_, h2⟩
  rw [htr] at h1
  exact no_bind_after_failure_split pre post _ h1 (by simp [Event.bind_failed, hneg])

/-- Witness of C4: both families asked for, the IPv4 bind answers -98. -/
theorem server_start_fail_fast_witness :
    (server_start (server_of params_v46) ⟨-98, 0, 0⟩).trace =
      [Event.malloc_addr 15] ++
        Event.evhtp_bind_socket (some 204)
          (( ipv4_prefix ++ addr_localhost4 ++ [0]).map some) 9090 1024 (-98) ::
        [Event.free_addr] ∧
    (server_start (server_of params_v46) ⟨-98, 0, 0⟩).result = Outcome.returned (-98) ∧
    (∀ e ∈ (server_start (server_of params_v46) ⟨-98, 0, 0⟩).trace, e.is_loop = false) :=
  have h := server_start_fail_fast (server_of params_v46) ⟨-98, 0, 0⟩ [Event.malloc_addr 15]
    [Event.free_addr] (some 204) (( ipv4_prefix ++ addr_localhost4 ++ [0]).map some) 9090 1024
    (-98) (by decide) (by decide)
  ⟨by decide, h.1, h.2.2.1⟩

/-- C5: with `bind_ipv4` set, `server_start` allocates `strlen(addr_ipv4) + 5 + 1`
bytes and first calls `evhtp_bind_socket` on the IPv4 listener with a buffer of
that size holding `"ipv4:"`, the address and a NUL, with the configured port
and backlog 1024; the string the binder reads is `"ipv4:"` followed by the
address, of length 5 plus the address length. -/
theorem server_start_ipv4_bind_string (server : Server) (params : Params) (env : StartEnv)
    (hp : server.params = some params) (h4 : params.bind_ipv4 = true) :
    (∃ rest, (server_start server env).trace =
      Event.malloc_addr (strlen params.addr_ipv4 + 5 + 1) ::
      Event.evhtp_bind_socket server.ev_htp_ipv4
        (( ipv4_prefix ++ cstr params.addr_ipv4 ++ [0]).map some)
        params.port 1024 env.bind_ipv4 :: rest) ∧
    (( ipv4_prefix ++ cstr params.addr_ipv4 ++ [0]).map some).length =
      strlen params.addr_ipv4 + 5 + 1 ∧
    read_cstr (( ipv4_prefix ++ cstr params.addr_ipv4 ++ [0]).map some) =
      some ( ipv4_prefix ++ cstr params.addr_ipv4) ∧
    ( ipv4_prefix ++ cstr params.addr_ipv4).length = 5 + strlen params.addr_ipv4 := by
  refine ⟨?_, ?_, ?_, ?_⟩
  · unfold server_start
    simp only [hp, h4, if_true, compose_ipv4_eq, strlen_ipv4_prefix_val]
    by_cases hrc : env.bind_ipv4 < 0
    · simp [hrc]
    · simp [hrc, StartResult.after]
  · simp [strlen, ipv4_prefix]
  · have hnz : ∀ b ∈ ipv4_prefix ++ cstr params.addr_ipv4, b ≠ 0 := by
      intro b hb
      rcases List.mem_append.mp hb with hb | hb
      · intro h0
        subst h0
        revert hb
        decide
      · exact cstr_ne_zero _ b hb
    have h := read_cstr_terminated _ hnz []
    simpa using h
  · simp [strlen, ipv4_prefix]
    omega

/-- Witness of C5: `127.0.0.1`, port 9090 gives a bind to `ipv4:127.0.0.1`,
port 9090, backlog 1024. -/
theorem server_start_ipv4_bind_string_witness :
    (∃ rest, (server_start (server_of params_v4) ⟨0, 0, 0⟩).trace =
      Event.malloc_addr 15 ::
      Event.evhtp_bind_socket (some 204)
        [some 105, some 112, some 118, some 52, some 58, some 49, some 50, some 55, some 46,
          some 48, some 46, some 48, some 46, some 49, some 0]
        9090 1024 0 :: rest) ∧
    read_cstr [some 105, some 112, some 118, some 52, some 58, some 49, some 50, some 55,
      some 46, some 48, some 46, some 48, some 46, some 49, some 0] =
      some [105, 112, 118, 52, 58, 49, 50, 55, 46, 48, 46, 48, 46, 49] :=
  have h := server_start_ipv4_bind_string (server_of params_v4) params_v4 ⟨0, 0, 0⟩
    (by decide) (by decide)
  ⟨h.1, h.2.2.1⟩

/-- C6: with `bind_ipv6` set and the address `::1`, the address is copied
through `addr_ptr + prefix_len` with `addr_ptr` still `NULL`, not into the
allocated buffer: the call stops at that store and `evhtp_bind_socket` is not
reached. -/
theorem server_start_ipv6_null_store :
    compose_ipv6 params_v6 = Mem.fault Fault.null_deref ∧
    server_start (server_of params_v6) ⟨0, 0, 0⟩ =
      { result := Outcome.fault Fault.null_deref, trace := [Event.malloc_addr 9] } ∧
    (∀ e ∈ (server_start (server_of params_v6) ⟨0, 0, 0⟩).trace, e.is_bind = false) := by
  decide

/-- C7: with both families asked for and every bind answering 0, the IPv4 bind
is made, but the call stops in the IPv6 block before the IPv6 bind and before
`event_base_loop`. -/
theorem server_start_both_families_stops_before_loop :
    server_start (server_of params_v46) ⟨0, 0, 7⟩ =
      { result := Outcome.fault Fault.null_deref
        trace := [Event.malloc_addr 15,
          Event.evhtp_bind_socket (some 204) (( ipv4_prefix ++ addr_localhost4 ++ [0]).map some)
            9090 1024 0,
          Event.free_addr, Event.malloc_addr 9] } ∧
    (∀ e ∈ (server_start (server_of params_v46) ⟨0, 0, 7⟩).trace, e.is_loop = false) := by
  decide

/-- With no family asked for, `server_start` makes no bind call, runs the loop
once and returns its status. -/
theorem server_start_no_family (server : Server) (params : Params) (env : StartEnv)
    (hp : server.params = some params) (h4 : params.bind_ipv4 = false)
    (h6 : params.bind_ipv6 = false) :
    server_start server env =
      { result := Outcome.returned env.event_base_loop
        trace := [Event.event_base_loop server.ev_base 0 env.event_base_loop] } := by
  simp [server_start, start_ipv6, start_loop, hp, h4, h6]

/-- With IPv4 only and a bind that does not fail, `server_start` binds, runs
the loop once and returns its status. -/
theorem server_start_ipv4_only (server : Server) (params : Params) (env : StartEnv)
    (hp : server.params = some params) (h4 : params.bind_ipv4 = true)
    (h6 : params.bind_ipv6 = false) (hrc : 0 ≤ env.bind_ipv4) :
    server_start server env =
      { result := Outcome.returned env.event_base_loop
        trace := [Event.malloc_addr (strlen params.addr_ipv4 + 5 + 1),
          Event.evhtp_bind_socket server.ev_htp_ipv4
            (( ipv4_prefix ++ cstr params.addr_ipv4 ++ [0]).map some)
            params.port 1024 env.bind_ipv4,
          Event.free_addr,
          Event.event_base_loop server.ev_base 0 env.event_base_loop] } := by
  have hn : ¬ env.bind_ipv4 < 0 := by omega
  simp [server_start, start_ipv6, start_loop, StartResult.after, hp, h4, h6, hn,
    compose_ipv4_eq, strlen_ipv4_prefix_val]

/-- With an empty IPv6 address the faulty copy writes nothing, and the IPv6
bind string is `"ipv6:"`. -/
theorem compose_ipv6_empty (params : Params) (h : strlen params.addr_ipv6 = 0) :
    compose_ipv6 params = Mem.ok (( ipv6_prefix ++ [0]).map some) := by
  unfold compose_ipv6
  simp only [h, strlen_ipv4_prefix_val]
  have hs : strncpy (malloc (0 + 5 + 1)) (some 0) ipv6_prefix 5 =
      Mem.ok ( ipv6_prefix.map some ++ [none]) := by decide
  rw [hs]
  simp only [strncpy, if_true]
  decide

/-- With a non-empty IPv6 address the IPv6 block stops at the copy. -/
theorem compose_ipv6_nonempty (params : Params) (h : strlen params.addr_ipv6 ≠ 0) :
    compose_ipv6 params = Mem.fault Fault.null_deref := by
  unfold compose_ipv6
  have s1 := store_fresh [] ipv6_prefix (strlen params.addr_ipv6 + 1)
  have hm : malloc (strlen params.addr_ipv6 + 5 + 1) =
      ([] : Buf) ++ List.replicate ( ipv6_prefix.length + (strlen params.addr_ipv6 + 1)) none := by
    simp [malloc, ipv6_prefix]
    omega
  simp only [strlen_ipv4_prefix_val, hm]
  have c1 : strncpy (([] : Buf) ++
      List.replicate ( ipv6_prefix.length + (strlen params.addr_ipv6 + 1)) none) (some 0)
      ipv6_prefix 5 =
      Mem.ok ( ipv6_prefix.map some ++ List.replicate (strlen params.addr_ipv6 + 1) none) := by
    unfold strncpy
    have hl : strlen ipv6_prefix = 5 := by decide
    simp only [cstr_ipv6_prefix_id, hl]
    simpa [ ipv6_prefix] using s1
  rw [c1]
  simp [strncpy, ptr_add, h]

end Management
